import Mathlib

/-!
Verification of the charge-processing core of the utility-billing system.

The embedding follows the Python source:
* `models.py`       — the entity records (`Street`, `Service`, `PersonalAccount`,
  `Charge`, `PaymentNotice`); Python `float` is modelled as `ℚ`.
* `chain_of_responsibility.py` — the handler chain.  The `_next_handler`
  back-link becomes the tail of a `List HandlerKind`; `handle` returning
  `Optional[float]` or raising `ValueError` becomes
  `Except ChargeError (Option ℚ)`.
* `database.py`     — insertion-ordered dictionaries as association lists.
* `main.py`         — `create_payment_notice`.
-/

namespace Billing

/-- `models.Street`. -/
structure Street where
  street_code : Int
  name : String
  deriving Repr, DecidableEq

/-- `models.Service`. -/
structure Service where
  service_code : Int
  name : String
  tariff : ℚ
  deriving Repr, DecidableEq

/-- `models.Service.calculate_cost`: `self.tariff * quantity`. -/
def Service.calculate_cost (s : Service) (quantity : ℚ) : ℚ :=
  s.tariff * quantity

/-- `models.PersonalAccount`. -/
structure PersonalAccount where
  account_code : Int
  account_number : String
  street_code : Int
  house : String
  building : Option String
  apartment : String
  full_name : String
  deriving Repr, DecidableEq

/-- `models.Charge`. -/
structure Charge where
  charge_code : Int
  account_code : Int
  service_code : Int
  quantity : ℚ
  deriving Repr, DecidableEq

/-- `models.PaymentNotice`. -/
structure PaymentNotice where
  account : PersonalAccount
  street : Street
  charges : List (Charge × Service)
  period_month : Int
  period_year : Int
  total_amount : ℚ
  deriving Repr, DecidableEq

/-- The `ValueError`s raised inside `chain_of_responsibility.py`. -/
inductive ChargeError where
  /-- Message "Отрицательное количество для начисления", with the charge code. -/
  | negativeQuantity (charge_code : Int)
  /-- Message "Отрицательный тариф для услуги", with the service code. -/
  | negativeTariff (service_code : Int)
  /-- Message "Не удалось обработать начисление", with the charge code. -/
  | unresolvedChain (charge_code : Int)
  deriving Repr, DecidableEq

/-- The concrete `ChargeHandler` subclasses of `chain_of_responsibility.py`,
with their constructor parameters.  A chain is a `List HandlerKind`; the list
tail plays the role of the `_next_handler` link. -/
inductive HandlerKind where
  | validation
  | discount (discount_threshold : ℚ) (discount_percent : ℚ)
  | penalty (penalty_percent : ℚ)
  | standard
  deriving Repr, DecidableEq

/-- `ChargeHandler.handle` dispatched over the chain.  The head handler runs;
`_process_next` recurses on the tail, and with no successor returns `none`
(the Python `None`).  `raise ValueError` is `Except.error`. -/
def runChain : List HandlerKind → Charge → Service → Except ChargeError (Option ℚ)
  | [], _, _ => .ok none
  | .validation :: rest, charge, service =>
      if charge.quantity < 0 then
        .error (.negativeQuantity charge.charge_code)
      else if service.tariff < 0 then
        .error (.negativeTariff service.service_code)
      else
        runChain rest charge service
  | .discount th pc :: rest, charge, service =>
      let base_cost := service.calculate_cost charge.quantity
      if base_cost ≥ th then
        .ok (some (base_cost - base_cost * (pc / 100)))
      else
        runChain rest charge service
  | .penalty pc :: _, charge, service =>
      let base_cost := service.calculate_cost charge.quantity
      .ok (some (base_cost + base_cost * (pc / 100)))
  | .standard :: _, charge, service =>
      .ok (some (service.calculate_cost charge.quantity))

/-- The fixed chain built in `ChargeProcessor.__init__`:
validation → discount(5000.0, 5.0) → standard. -/
def defaultChain : List HandlerKind :=
  [.validation, .discount 5000 5, .standard]

/-- `ChargeProcessor.process_charge`: run the chain; a `None` result becomes
the "unresolved" `ValueError`. -/
def process_charge (charge : Charge) (service : Service) : Except ChargeError ℚ :=
  match runChain defaultChain charge service with
  | .error e => .error e
  | .ok none => .error (.unresolvedChain charge.charge_code)
  | .ok (some r) => .ok r

/-- `True` exactly when `process_charge` returns normally. -/
def chargeOk (charge : Charge) (service : Service) : Bool :=
  match process_charge charge service with
  | .ok _ => true
  | .error _ => false

/-- The cost `process_charge` returns; meaningful only when `chargeOk`. -/
def chargeCost (charge : Charge) (service : Service) : ℚ :=
  match process_charge charge service with
  | .ok r => r
  | .error _ => 0

/-- The `for charge, service in notice.charges` loop of
`ChargeProcessor.process_notice`, threading the running `total_amount`;
the first raising pair aborts the whole loop. -/
def processPairs : List (Charge × Service) → ℚ → Except ChargeError ℚ
  | [], total_amount => .ok total_amount
  | (charge, service) :: rest, total_amount =>
      match process_charge charge service with
      | .error e => .error e
      | .ok cost => processPairs rest (total_amount + cost)

/-- `ChargeProcessor.process_notice`.  The Python method mutates the notice
and also returns it; the embedding returns the pair
(return value or propagated exception, state of the notice object after the
call).  `notice.total_amount = total_amount` runs only after the loop
finishes, so on an exception the object is unchanged. -/
def process_notice (notice : PaymentNotice) :
    Except ChargeError PaymentNotice × PaymentNotice :=
  match processPairs notice.charges 0 with
  | .error e => (.error e, notice)
  | .ok total_amount =>
      let processed := { notice with total_amount := total_amount }
      (.ok processed, processed)

/-- Python `dict.__setitem__` on an insertion-ordered association list:
an existing key keeps its position, a new key is appended. -/
def dictSet {α : Type} (k : Int) (v : α) : List (Int × α) → List (Int × α)
  | [] => [(k, v)]
  | (k₂, v₂) :: rest =>
      if k₂ = k then (k, v) :: rest else (k₂, v₂) :: dictSet k v rest

/-- Python `dict.get`. -/
def dictGet {α : Type} (k : Int) : List (Int × α) → Option α
  | [] => none
  | (k₂, v) :: rest => if k₂ = k then some v else dictGet k rest

/-- Python `dict.values()` in insertion order. -/
def dictValues {α : Type} (d : List (Int × α)) : List α :=
  d.map Prod.snd

/-- `database.Database`: the four keyed stores. -/
structure Database where
  streets : List (Int × Street)
  accounts : List (Int × PersonalAccount)
  services : List (Int × Service)
  charges : List (Int × Charge)
  deriving Repr

/-- `Database.add_street`. -/
def Database.add_street (db : Database) (street : Street) : Database :=
  { db with streets := dictSet street.street_code street db.streets }

/-- `Database.get_street`. -/
def Database.get_street (db : Database) (street_code : Int) : Option Street :=
  dictGet street_code db.streets

/-- `Database.add_account`. -/
def Database.add_account (db : Database) (account : PersonalAccount) : Database :=
  { db with accounts := dictSet account.account_code account db.accounts }

/-- `Database.get_account`. -/
def Database.get_account (db : Database) (account_code : Int) : Option PersonalAccount :=
  dictGet account_code db.accounts

/-- `Database.add_service`. -/
def Database.add_service (db : Database) (service : Service) : Database :=
  { db with services := dictSet service.service_code service db.services }

/-- `Database.get_service`. -/
def Database.get_service (db : Database) (service_code : Int) : Option Service :=
  dictGet service_code db.services

/-- `Database.add_charge`. -/
def Database.add_charge (db : Database) (charge : Charge) : Database :=
  { db with charges := dictSet charge.charge_code charge db.charges }

/-- `Database.get_charges_by_account`:
`[c for c in self._charges.values() if c.account_code == account_code]`. -/
def Database.get_charges_by_account (db : Database) (account_code : Int) : List Charge :=
  (dictValues db.charges).filter (fun c => c.account_code = account_code)

/-- The `ValueError`s raised by `main.create_payment_notice`. -/
inductive NoticeError where
  /-- Message "Лицевой счет не найден", with the account code. -/
  | accountNotFound (account_code : Int)
  /-- Message "Улица не найдена", with the street code. -/
  | streetNotFound (street_code : Int)
  /-- Message "Начисления не найдены", with the account code. -/
  | noCharges (account_code : Int)
  deriving Repr, DecidableEq

/-- The charge/service pairing loop of `main.create_payment_notice`:
a charge whose service is not found is skipped. -/
def resolvePairs (db : Database) (charges : List Charge) : List (Charge × Service) :=
  charges.filterMap (fun charge =>
    (db.get_service charge.service_code).map (fun service => (charge, service)))

/-- `main.create_payment_notice`. -/
def create_payment_notice (db : Database) (account_code : Int)
    (period_month : Int) (period_year : Int) : Except NoticeError PaymentNotice :=
  match db.get_account account_code with
  | none => .error (.accountNotFound account_code)
  | some account =>
    match db.get_street account.street_code with
    | none => .error (.streetNotFound account.street_code)
    | some street =>
      let charge_service_pairs := resolvePairs db (db.get_charges_by_account account_code)
      if charge_service_pairs.isEmpty then
        .error (.noCharges account_code)
      else
        .ok { account := account
              street := street
              charges := charge_service_pairs
              period_month := period_month
              period_year := period_year
              total_amount := 0 }

/-- `true` exactly on the `error` constructor (a raised `ValueError`). -/
def isError {ε α : Type} : Except ε α → Bool
  | .error _ => true
  | .ok _ => false

/-! ### Evaluation lemmas for the default chain -/

/-- Closed-form evaluation of `process_charge` over the default chain. -/
lemma process_charge_eval (charge : Charge) (service : Service) :
    process_charge charge service =
      if charge.quantity < 0 then
        .error (.negativeQuantity charge.charge_code)
      else if service.tariff < 0 then
        .error (.negativeTariff service.service_code)
      else if service.tariff * charge.quantity ≥ 5000 then
        .ok (service.tariff * charge.quantity -
             service.tariff * charge.quantity * (5 / 100))
      else
        .ok (service.tariff * charge.quantity) := by
  simp only [process_charge, defaultChain, runChain, Service.calculate_cost]
  split_ifs <;> rfl

/-- When `chargeOk` holds, `process_charge` returns `chargeCost`. -/
lemma process_charge_of_chargeOk (charge : Charge) (service : Service)
    (h : chargeOk charge service = true) :
    process_charge charge service = .ok (chargeCost charge service) := by
  rcases hp : process_charge charge service with e | r
  · simp [chargeOk, hp] at h
  · simp [chargeCost, hp]

/-- When `chargeOk` fails, `process_charge` raises. -/
lemma isError_process_charge (charge : Charge) (service : Service)
    (h : chargeOk charge service = false) :
    isError (process_charge charge service) = true := by
  rcases hp : process_charge charge service with e | r
  · simp [isError]
  · simp [chargeOk, hp] at h

/-- The aggregation loop on an all-accepting list adds that list of costs to the
accumulator. -/
lemma processPairs_ok (l : List (Charge × Service))
    (h : l.all (fun p => chargeOk p.1 p.2) = true) (a : ℚ) :
    processPairs l a = .ok (a + (l.map (fun p => chargeCost p.1 p.2)).sum) := by
  induction l generalizing a with
  | nil => simp [processPairs]
  | cons p rest ih =>
      rw [List.all_cons, Bool.and_eq_true] at h
      obtain ⟨c, s⟩ := p
      have hc := process_charge_of_chargeOk c s h.1
      simp only [processPairs, hc, ih h.2, List.map_cons, List.sum_cons]
      rw [add_assoc]

/-- The aggregation loop raises as soon as some pair is rejected. -/
lemma processPairs_isError (l : List (Charge × Service))
    (h : l.all (fun p => chargeOk p.1 p.2) = false) (a : ℚ) :
    isError (processPairs l a) = true := by
  induction l generalizing a with
  | nil => simp at h
  | cons p rest ih =>
      obtain ⟨c, s⟩ := p
      rw [List.all_cons] at h
      cases hc : chargeOk c s with
      | false =>
          have he := isError_process_charge c s hc
          rcases hp : process_charge c s with e | r
          · simp [processPairs, hp, isError]
          · rw [hp] at he; simp [isError] at he
      | true =>
          rw [hc, Bool.true_and] at h
          have hok := process_charge_of_chargeOk c s hc
          simp only [processPairs, hok]
          exact ih h (a + chargeCost c s)

/-! ### Concrete sample data (used by witnesses) -/

/-- A small ordinary charge. -/
def wCharge : Charge :=
  { charge_code := 1, account_code := 1, service_code := 1, quantity := 2 }

/-- A small ordinary service. -/
def wService : Service :=
  { service_code := 1, name := "cold water", tariff := 100 }

/-- A charge with one unit, for exercising the discount boundary. -/
def wChargeUnit : Charge :=
  { charge_code := 2, account_code := 1, service_code := 2, quantity := 1 }

/-- A service whose tariff alone reaches the discount threshold. -/
def wServiceBig : Service :=
  { service_code := 2, name := "heating", tariff := 5000 }

/-- A charge with negative quantity. -/
def wChargeNeg : Charge :=
  { charge_code := 3, account_code := 1, service_code := 3, quantity := -1 }

/-- A service with negative tariff. -/
def wServiceNeg : Service :=
  { service_code := 3, name := "gas", tariff := -4 }

/-- A sample account. -/
def wAccount : PersonalAccount :=
  { account_code := 1
    account_number := "LS-001"
    street_code := 1
    house := "10"
    building := none
    apartment := "15"
    full_name := "Ivanov" }

/-- A sample street. -/
def wStreet : Street := { street_code := 1, name := "Lenina" }

/-- A notice whose two pairs both process successfully. -/
def wNotice : PaymentNotice :=
  { account := wAccount
    street := wStreet
    charges := [(wCharge, wService), (wChargeUnit, wServiceBig)]
    period_month := 5
    period_year := 2025
    total_amount := 7 }

/-- A notice containing a rejected pair. -/
def wNoticeBad : PaymentNotice :=
  { wNotice with charges := [(wCharge, wService), (wChargeNeg, wService)] }

/-! ### Claim theorems -/

/-- C1.  On inputs with nonnegative quantity and tariff the default chain
entry point returns `base * (1 - 5/100)` when `base = tariff * quantity`
reaches `5000`, and `base` otherwise — never the "unresolved chain" failure,
since the chain ends in the unconditional standard handler. -/
theorem process_charge_default_formula (charge : Charge) (service : Service)
    (hq : 0 ≤ charge.quantity) (ht : 0 ≤ service.tariff) :
    process_charge charge service =
      .ok (if service.tariff * charge.quantity ≥ 5000 then
             service.tariff * charge.quantity * (1 - 5 / 100)
           else service.tariff * charge.quantity) := by
  rw [process_charge_eval, if_neg (not_lt.mpr hq), if_neg (not_lt.mpr ht)]
  split_ifs with h
  · congr 1
    ring
  · rfl

/-- Witness for C1 at `tariff = 100`, `quantity = 2`. -/
theorem process_charge_default_formula_witness :
    0 ≤ wCharge.quantity ∧ 0 ≤ wService.tariff ∧
    process_charge wCharge wService =
      .ok (if wService.tariff * wCharge.quantity ≥ 5000 then
             wService.tariff * wCharge.quantity * (1 - 5 / 100)
           else wService.tariff * wCharge.quantity) :=
  ⟨by decide, by decide,
   process_charge_default_formula wCharge wService (by decide) (by decide)⟩

/-- C3.  A negative quantity or a negative tariff makes `process_charge`
raise the `InvalidInput` error naming the offending charge or service code;
no cost is returned. -/
theorem process_charge_invalid_input (charge : Charge) (service : Service)
    (h : charge.quantity < 0 ∨ service.tariff < 0) :
    process_charge charge service =
      .error (if charge.quantity < 0 then
                .negativeQuantity charge.charge_code
              else
                .negativeTariff service.service_code) := by
  rw [process_charge_eval]
  by_cases hq : charge.quantity < 0
  · rw [if_pos hq, if_pos hq]
  · rw [if_neg hq, if_neg hq, if_pos (h.resolve_left hq)]

/-- Witness for C3 at a negative-tariff service. -/
theorem process_charge_invalid_input_witness :
    (wCharge.quantity < 0 ∨ wServiceNeg.tariff < 0) ∧
    process_charge wCharge wServiceNeg =
      .error (if wCharge.quantity < 0 then
                ChargeError.negativeQuantity wCharge.charge_code
              else
                ChargeError.negativeTariff wServiceNeg.service_code) :=
  ⟨Or.inr (by decide),
   process_charge_invalid_input wCharge wServiceNeg (Or.inr (by decide))⟩

/-- C5.  The discount handler resolves exactly when
`base = tariff * quantity ≥ threshold` (inclusive boundary), in which case it
returns `base * (1 - percent/100)`, and otherwise delegates; with
percent `5`, threshold `5000` and `tariff * quantity = 5000` the default
chain returns exactly `4750`. -/
theorem discount_handler_boundary :
    (∀ (th pc : ℚ) (rest : List HandlerKind) (charge : Charge)
       (service : Service),
       runChain (.discount th pc :: rest) charge service =
         if service.tariff * charge.quantity ≥ th then
           .ok (some (service.tariff * charge.quantity * (1 - pc / 100)))
         else runChain rest charge service) ∧
    process_charge wChargeUnit wServiceBig = .ok 4750 := by
  refine ⟨?_, ?_⟩
  · intro th pc rest charge service
    simp only [runChain, Service.calculate_cost]
    split_ifs with h
    · congr 2
      ring
    · rfl
  · rw [process_charge_eval]
    norm_num [wChargeUnit, wServiceBig]

/-- C9.  When both the quantity and the tariff are negative, the validation
handler raises the negative-quantity error naming the charge code: the
quantity check precedes the tariff check, whatever follows in the chain. -/
theorem validation_checks_quantity_first (rest : List HandlerKind)
    (charge : Charge) (service : Service)
    (hq : charge.quantity < 0) (ht : service.tariff < 0) :
    runChain (.validation :: rest) charge service =
      .error (.negativeQuantity charge.charge_code) := by
  simp only [runChain]
  rw [if_pos hq]

/-- Witness for C9 at a doubly-negative input. -/
theorem validation_checks_quantity_first_witness :
    wChargeNeg.quantity < 0 ∧ wServiceNeg.tariff < 0 ∧
    runChain [.validation] wChargeNeg wServiceNeg =
      .error (.negativeQuantity wChargeNeg.charge_code) :=
  ⟨by decide, by decide,
   validation_checks_quantity_first [] wChargeNeg wServiceNeg
     (by decide) (by decide)⟩

/-- C2.  When every pair of the notice is accepted by `process_charge`,
`process_notice` returns (and stores on the notice) a `total_amount` equal to
the sum of the per-pair `process_charge` results. -/
theorem process_notice_total_sum (n : PaymentNotice)
    (h : n.charges.all (fun p => chargeOk p.1 p.2) = true) :
    process_notice n =
      (.ok { n with
               total_amount := (n.charges.map (fun p => chargeCost p.1 p.2)).sum },
       { n with
           total_amount := (n.charges.map (fun p => chargeCost p.1 p.2)).sum }) := by
  have hp := processPairs_ok n.charges h 0
  rw [zero_add] at hp
  simp [process_notice, hp]

/-- Witness for C2 on a two-pair notice. -/
theorem process_notice_total_sum_witness :
    wNotice.charges.all (fun p => chargeOk p.1 p.2) = true ∧
    process_notice wNotice =
      (.ok { wNotice with
               total_amount :=
                 (wNotice.charges.map (fun p => chargeCost p.1 p.2)).sum },
       { wNotice with
           total_amount :=
             (wNotice.charges.map (fun p => chargeCost p.1 p.2)).sum }) := by
  have hall : (wNotice.charges.all fun p => chargeOk p.1 p.2) = true := by
    norm_num [wNotice, wCharge, wService, wChargeUnit, wServiceBig, chargeOk,
      process_charge_eval]
  exact ⟨hall, process_notice_total_sum wNotice hall⟩

/-- C4.  If any pair of the notice is rejected, `process_notice` raises and
the notice object is left exactly as it was: no partial total is stored. -/
theorem process_notice_atomic (n : PaymentNotice)
    (h : n.charges.all (fun p => chargeOk p.1 p.2) = false) :
    isError (process_notice n).1 = true ∧ (process_notice n).2 = n := by
  have he := processPairs_isError n.charges h 0
  rcases hp : processPairs n.charges 0 with e | t
  · simp [process_notice, hp, isError]
  · rw [hp] at he
    simp [isError] at he

/-- Witness for C4 on a notice whose second pair has negative quantity. -/
theorem process_notice_atomic_witness :
    wNoticeBad.charges.all (fun p => chargeOk p.1 p.2) = false ∧
    isError (process_notice wNoticeBad).1 = true ∧
    (process_notice wNoticeBad).2 = wNoticeBad := by
  have hall : (wNoticeBad.charges.all fun p => chargeOk p.1 p.2) = false := by
    norm_num [wNoticeBad, wNotice, wCharge, wService, wChargeNeg, chargeOk,
      process_charge_eval]
  exact ⟨hall, process_notice_atomic wNoticeBad hall⟩

/-- C7.  Re-running `process_notice` on the notice object produced by a
successful run returns the very same result: `total_amount` is overwritten,
not accumulated. -/
theorem process_notice_overwrites (n : PaymentNotice)
    (h : n.charges.all (fun p => chargeOk p.1 p.2) = true) :
    process_notice ((process_notice n).2) = process_notice n ∧
    ((process_notice ((process_notice n).2)).2).total_amount =
      ((process_notice n).2).total_amount := by
  have hp := processPairs_ok n.charges h 0
  rw [zero_add] at hp
  constructor
  · simp [process_notice, hp]
  · simp [process_notice, hp]

/-- Witness for C7 on a two-pair notice. -/
theorem process_notice_overwrites_witness :
    wNotice.charges.all (fun p => chargeOk p.1 p.2) = true ∧
    process_notice ((process_notice wNotice).2) = process_notice wNotice ∧
    ((process_notice ((process_notice wNotice).2)).2).total_amount =
      ((process_notice wNotice).2).total_amount := by
  have hall : (wNotice.charges.all fun p => chargeOk p.1 p.2) = true := by
    norm_num [wNotice, wCharge, wService, wChargeUnit, wServiceBig, chargeOk,
      process_charge_eval]
  exact ⟨hall, process_notice_overwrites wNotice hall⟩

/-- C8.  `process_notice` only ever changes the `total_amount` of the notice:
account, street, the charge list (hence every referenced charge and service)
and the billing period are those of the input, whether or not the run
raises. -/
theorem process_notice_frame (n : PaymentNotice) :
    ((process_notice n).2).account = n.account ∧
    ((process_notice n).2).street = n.street ∧
    ((process_notice n).2).charges = n.charges ∧
    ((process_notice n).2).period_month = n.period_month ∧
    ((process_notice n).2).period_year = n.period_year := by
  rcases hp : processPairs n.charges 0 with e | t <;>
    simp [process_notice, hp]

/-- C10.  On a notice whose charge list is empty, `process_notice` succeeds
and stores `total_amount = 0`. -/
theorem process_notice_empty_list (n : PaymentNotice) (h : n.charges = []) :
    process_notice n =
      (.ok { n with total_amount := 0 }, { n with total_amount := 0 }) := by
  simp [process_notice, h, processPairs]

/-- Witness for C10 on an emptied sample notice. -/
theorem process_notice_empty_list_witness :
    ({ wNotice with charges := [] } : PaymentNotice).charges = [] ∧
    process_notice { wNotice with charges := [] } =
      (.ok { { wNotice with charges := [] } with total_amount := 0 },
       { { wNotice with charges := [] } with total_amount := 0 }) :=
  ⟨rfl, process_notice_empty_list { wNotice with charges := [] } rfl⟩

/-- An empty database. -/
def wEmptyDb : Database :=
  { streets := [], accounts := [], services := [], charges := [] }

/-- A database holding the sample account but not its street. -/
def wDbNoStreet : Database := wEmptyDb.add_account wAccount

/-- A database holding the sample account and street but no charges. -/
def wDbNoCharges : Database :=
  (wEmptyDb.add_account wAccount).add_street wStreet

/-- A charge referencing a service code absent from the store. -/
def wChargeOrphan : Charge :=
  { charge_code := 9, account_code := 1, service_code := 99, quantity := 3 }

/-- A populated database: account, street, one resolvable charge and one
charge whose service is missing. -/
def wDb2 : Database :=
  ((wDbNoCharges.add_service wService).add_charge wCharge).add_charge
    wChargeOrphan

/-- The notice `create_payment_notice` builds from `wDb2`. -/
def wCreatedNotice : PaymentNotice :=
  { account := wAccount
    street := wStreet
    charges := [(wCharge, wService)]
    period_month := 5
    period_year := 2025
    total_amount := 0 }

/-- C6.  Notice construction: a missing account raises `NotFound` for the
account, a missing street raises `NotFound` for the street, an account whose
charge/service pairing resolves to nothing raises `EmptyResult`, and a
successful construction returns `total_amount = 0` with exactly the resolved
pairs (charges with an unresolvable service silently skipped by
`resolvePairs`). -/
theorem create_payment_notice_resolution (db : Database)
    (account_code period_month period_year : Int) :
    (db.get_account account_code = none →
       create_payment_notice db account_code period_month period_year =
         .error (.accountNotFound account_code)) ∧
    (∀ account, db.get_account account_code = some account →
       db.get_street account.street_code = none →
       create_payment_notice db account_code period_month period_year =
         .error (.streetNotFound account.street_code)) ∧
    (∀ account street, db.get_account account_code = some account →
       db.get_street account.street_code = some street →
       resolvePairs db (db.get_charges_by_account account_code) = [] →
       create_payment_notice db account_code period_month period_year =
         .error (.noCharges account_code)) ∧
    (∀ n, create_payment_notice db account_code period_month period_year =
            .ok n →
       n.total_amount = 0 ∧
       n.charges = resolvePairs db (db.get_charges_by_account account_code)) := by
  refine ⟨?_, ?_, ?_, ?_⟩
  · intro h
    simp [create_payment_notice, h]
  · intro account ha hs
    simp [create_payment_notice, ha, hs]
  · intro account street ha hs hp
    simp [create_payment_notice, ha, hs, hp]
  · intro n hn
    rcases ha : db.get_account account_code with _ | account
    · simp [create_payment_notice, ha] at hn
    rcases hs : db.get_street account.street_code with _ | street
    · simp [create_payment_notice, ha, hs] at hn
    by_cases hp :
        (resolvePairs db (db.get_charges_by_account account_code)).isEmpty
    · simp [create_payment_notice, ha, hs, hp] at hn
    · simp [create_payment_notice, ha, hs, hp] at hn
      rw [← hn]
      exact ⟨rfl, rfl⟩

/-- Witness for C6 across the four sample databases. -/
theorem create_payment_notice_resolution_witness :
    create_payment_notice wEmptyDb 1 5 2025 = .error (.accountNotFound 1) ∧
    create_payment_notice wDbNoStreet 1 5 2025 = .error (.streetNotFound 1) ∧
    create_payment_notice wDbNoCharges 1 5 2025 = .error (.noCharges 1) ∧
    wCreatedNotice.total_amount = 0 ∧
    wCreatedNotice.charges =
      resolvePairs wDb2 (wDb2.get_charges_by_account 1) := by
  have h1 := (create_payment_notice_resolution wEmptyDb 1 5 2025).1 rfl
  have h2 := (create_payment_notice_resolution wDbNoStreet 1 5 2025).2.1
    wAccount rfl rfl
  have h3 := (create_payment_notice_resolution wDbNoCharges 1 5 2025).2.2.1
    wAccount wStreet rfl rfl rfl
  have h4 := (create_payment_notice_resolution wDb2 1 5 2025).2.2.2
    wCreatedNotice rfl
  exact ⟨h1, h2, h3, h4⟩

end Billing
